import Mathlib

/-!
Shallow embedding of the data pipeline of `main.py` (a Streamlit dashboard
showing average weekly hours worked in Europe, from Eurostat with a local
Excel fallback).

Modelling conventions:
* Python scalar values flowing through loosely-typed code (event payloads,
  dataframe cells) are modelled by `PyVal` (`None`, strings, integers,
  lists, string-keyed dicts).  Missing cells / `NaN` are `PyVal.none`.
* A pandas `DataFrame` is `DF`: a list of column labels plus rows of cells,
  each row aligned positionally with the columns.
* Python exceptions are modelled by `Except PyErr`: a fallible operation
  returns `Except.error e` exactly when the Python code raises.
* Hours values are rationals (`Rat`); the binning code only compares them,
  so exact rational arithmetic models the float comparisons faithfully.
* The `try/except` acquisition step of `main` is a function of the remote
  provider's response (`Option DF`, `Option.none` = `get_data_df` returned
  `None`) and of the outcome of reading the local snapshot file
  (`Except PyErr DF`, the file I/O itself being outside the program).
-/

/-- Python exception kinds raised by the modelled code paths. -/
inductive PyErr where
  | attributeError
  | typeError
  | keyError
  | indexError
  | runtimeError
  | valueError
deriving DecidableEq, Repr

/-- Dynamically-typed Python values appearing in the modelled code. -/
inductive PyVal where
  | none
  | str (s : String)
  | int (n : Int)
  | list (xs : List PyVal)
  | dict (es : List (String × PyVal))

/-- Python truthiness of a `PyVal` (used by `or` and by `if x:` tests). -/
def pyTruthy : PyVal → Bool
  | .none => false
  | .str s => !s.isEmpty
  | .int n => n != 0
  | .list xs => !xs.isEmpty
  | .dict es => !es.isEmpty

/-- `v` is `None` (also models a `NaN` cell in a dataframe). -/
def PyVal.isNone : PyVal → Bool
  | .none => true
  | _ => false

/-- `d.get(k, dflt)` on the entry list of a Python dict. -/
def dictGet (es : List (String × PyVal)) (k : String) (dflt : PyVal) : PyVal :=
  match es.find? (fun p => p.1 == k) with
  | some p => p.2
  | Option.none => dflt

/-- Python `.get(k, dflt)`: only dicts have the method, anything else
raises `AttributeError`. -/
def pyGet (v : PyVal) (k : String) (dflt : PyVal) : Except PyErr PyVal :=
  match v with
  | .dict es => .ok (dictGet es k dflt)
  | _ => .error .attributeError

/-- Python `k in v` for a dict `v` (`False` on non-dicts, which is the only
use site in the source). -/
def pyContains (v : PyVal) (k : String) : Bool :=
  match v with
  | .dict es => (es.find? (fun p => p.1 == k)).isSome
  | _ => false

/-- Python `v[0]`: first element of a list, first character of a string;
`IndexError` when empty, `KeyError` on a string-keyed dict, `TypeError` on
non-subscriptable values. -/
def pyIndex0 : PyVal → Except PyErr PyVal
  | .list [] => .error .indexError
  | .list (x :: _) => .ok x
  | .str s => if s.isEmpty then .error .indexError else .ok (.str (String.singleton s.front))
  | .dict _ => .error .keyError
  | _ => .error .typeError

/-! ### Country Code Resolver (`code_to_country` in `main.py`) -/

/-- The fixed two-letter-code → display-name table of `main.py`. -/
def code_to_country : List (String × String) :=
  [("BE", "Belgium"), ("BG", "Bulgaria"), ("CZ", "Czechia"),
   ("DK", "Denmark"), ("DE", "Germany"), ("EE", "Estonia"),
   ("IE", "Ireland"), ("GR", "Greece"), ("ES", "Spain"),
   ("FR", "France"), ("HR", "Croatia"), ("IT", "Italy"),
   ("CY", "Cyprus"), ("LV", "Latvia"), ("LT", "Lithuania"),
   ("LU", "Luxembourg"), ("HU", "Hungary"), ("MT", "Malta"),
   ("NL", "Netherlands"), ("AT", "Austria"), ("PL", "Poland"),
   ("PT", "Portugal"), ("RO", "Romania"), ("SI", "Slovenia"),
   ("SK", "Slovakia"), ("FI", "Finland"), ("SE", "Sweden"),
   ("IS", "Iceland"), ("NO", "Norway"), ("CH", "Switzerland"),
   ("GB", "United Kingdom"), ("BA", "Bosnia and Herzegovina"), ("ME", "Montenegro"),
   ("MK", "North Macedonia"), ("RS", "Serbia"), ("TR", "Türkiye")]

/-- Dict lookup `code_to_country[c]` as used by `Series.map` (absent key →
missing value). -/
def code_to_name (c : String) : Option String :=
  (code_to_country.find? (fun p => p.1 == c)).map (fun p => p.2)

/-- The reversed dict built by the `for k, v in code_to_country.items()`
loop of `rename_countries`: later insertions overwrite earlier ones, hence
the first match on the reversed entry list. -/
def name_to_code (n : String) : Option String :=
  (code_to_country.reverse.find? (fun p => p.2 == n)).map (fun p => p.1)

/-- `Series.map(code_to_country)` on one cell: a string cell is looked up
(missing → `NaN`), a non-string cell maps to `NaN`. -/
def mapToCountry (v : PyVal) : PyVal :=
  match v with
  | .str c =>
    match code_to_name c with
    | some n => .str n
    | Option.none => .none
  | _ => .none

/-- `Series.map(new_dict)` (the reversed dict) on one cell. -/
def mapToCode (v : PyVal) : PyVal :=
  match v with
  | .str n =>
    match name_to_code n with
    | some c => .str c
    | Option.none => .none
  | _ => .none

/-! ### DataFrames and the Data Source Adapter -/

/-- A pandas `DataFrame`: column labels plus rows of cells, each row
aligned positionally with `columns`. -/
structure DF where
  columns : List String
  rows : List (List PyVal)

/-- `df[c]` as a column of cells; `KeyError` when the column is absent. -/
def getCol (df : DF) (c : String) : Except PyErr (List PyVal) :=
  match df.columns.findIdx? (fun x => x == c) with
  | some j => .ok (df.rows.map (fun r => r.getD j PyVal.none))
  | Option.none => .error .keyError

/-- `df[c] = vals` (one value per row): replaces the column when present,
appends it otherwise. -/
def setCol (df : DF) (c : String) (vals : List PyVal) : DF :=
  match df.columns.findIdx? (fun x => x == c) with
  | some j => ⟨df.columns, (df.rows.zip vals).map (fun p => p.1.set j p.2)⟩
  | Option.none => ⟨df.columns ++ [c], (df.rows.zip vals).map (fun p => p.1 ++ [p.2])⟩

/-- `df.drop(columns=cs)`: `KeyError` when any listed column is absent. -/
def drop_columns (df : DF) (cs : List String) : Except PyErr DF :=
  if cs.all (fun c => df.columns.contains c) then
    .ok ⟨df.columns.filter (fun c => !cs.contains c),
         df.rows.map (fun r =>
           ((df.columns.zip r).filter (fun p => !cs.contains p.1)).map (fun p => p.2))⟩
  else .error .keyError

/-- `df.rename(columns={old: new})` (absent `old` is silently ignored). -/
def rename_column (df : DF) (old new : String) : DF :=
  ⟨df.columns.map (fun c => if c = old then new else c), df.rows⟩

/-- Dimension columns dropped by `download_data`. -/
def dropped_columns : List String :=
  ["freq", "isco08", "wstatus", "worktime", "age", "unit", "sex"]

/-- `download_data` of `main.py`, as a function of the remote provider's
response (`Option.none` models `get_data_df` returning `None`): raise on a
`None` response, otherwise drop the irrelevant dimension columns and rename
the geo column to `ISO2`. -/
def download_data (resp : Option DF) : Except PyErr DF :=
  match resp with
  | Option.none => .error .runtimeError
  | some df =>
    match drop_columns df dropped_columns with
    | .ok df1 => .ok (rename_column df1 "geo\\TIME_PERIOD" "ISO2")
    | .error e => .error e

/-- `rename_countries(df, data_local)` of `main.py`.  Remote path
(`data_local = False`): `df['country'] = df['ISO2'].map(code_to_country)`
then `df.dropna(subset=['country'])`.  Local path: `df['ISO2'] =
df['country'].map(new_dict)` with no dropping. -/
def rename_countries (df : DF) (data_local : Bool) : Except PyErr DF :=
  if !data_local then
    match getCol df "ISO2" with
    | .error e => .error e
    | .ok iso =>
      let df1 := setCol df "country" (iso.map mapToCountry)
      match df1.columns.findIdx? (fun x => x == "country") with
      | some j =>
        .ok ⟨df1.columns, df1.rows.filter (fun r => !(r.getD j PyVal.none).isNone)⟩
      | Option.none => .error .keyError
  else
    match getCol df "country" with
    | .error e => .error e
    | .ok names => .ok (setCol df "ISO2" (names.map mapToCode))

/-- The remote strategy of the acquisition step in `main`:
`download_data()` followed by `rename_countries(df)`. -/
def remote_acquire (resp : Option DF) : Except PyErr DF :=
  match download_data resp with
  | .ok df => rename_countries df false
  | .error e => .error e

/-- The local strategy: `read_data()` (its outcome is the parameter, the
file I/O being external) followed by `rename_countries(df, data_local=True)`. -/
def local_acquire (localRead : Except PyErr DF) : Except PyErr DF :=
  match localRead with
  | .ok df => rename_countries df true
  | .error e => .error e

/-- The `try/except` acquisition step of `main` (lines 210–219): try the
remote strategy; on any exception fall back to the local strategy and set
`used_fallback` (the returned flag, which drives the warning banner); a
local failure propagates. -/
def acquire (resp : Option DF) (localRead : Except PyErr DF) :
    Except PyErr (DF × Bool) :=
  match remote_acquire resp with
  | .ok df => .ok (df, false)
  | .error _ =>
    match local_acquire localRead with
    | .ok df => .ok (df, true)
    | .error e => .error e

/-! ### Normalizer (`pivot_data`) -/

/-- A decimal-digit value, as consumed by Python `int(...)`. -/
def digitVal (c : Char) : Option Nat :=
  if c.isDigit then some (c.toNat - 48) else Option.none

/-- Parse a non-empty run of decimal digits (accumulator `Option.none`
until the first digit has been seen). -/
def parseNatDigits : List Char → Option Nat → Option Nat
  | [], acc => acc
  | c :: cs, acc =>
    match digitVal c, acc with
    | some d, some a => parseNatDigits cs (some (a * 10 + d))
    | some d, Option.none => parseNatDigits cs (some d)
    | Option.none, _ => Option.none

/-- Python `int(s)` on a decimal string (optional sign, digits), as used by
`astype(int)` on the melted year column: `Option.none` models the
`ValueError` on a non-integer label. -/
def str_to_int (s : String) : Option Int :=
  match s.data with
  | '-' :: cs => (parseNatDigits cs Option.none).map (fun n => -(n : Int))
  | cs => (parseNatDigits cs Option.none).map (fun n => (n : Int))

/-- Wide Table as fed to `pivot_data`: the id columns `country` and `ISO2`
plus one cell per year-column label. -/
structure Wide where
  yearCols : List String
  rows : List (String × Option String × List (Option Rat))

/-- One melted row before year coercion: (country, ISO2, year label, hours). -/
abbrev MRow : Type := String × Option String × String × Option Rat

/-- `pd.melt(df, id_vars=['country','ISO2'])`: one output block per value
column (in column order), each block listing every row in order. -/
def meltCols (i : Nat) (cols : List String)
    (rows : List (String × Option String × List (Option Rat))) : List MRow :=
  match cols with
  | [] => []
  | c :: cs =>
    rows.map (fun r => (r.1, r.2.1, c, r.2.2.getD i Option.none)) ++ meltCols (i + 1) cs rows

/-- `pd.melt` over the whole Wide Table. -/
def melt (w : Wide) : List MRow :=
  meltCols 0 w.yearCols w.rows

/-- One row of the Long Table. -/
structure LongRow where
  country : String
  iso2 : Option String
  year : Int
  hours : Option Rat
deriving DecidableEq, Repr

/-- Year coercion of one melted row (`astype(int)` on its year label). -/
def toLongRow (r : MRow) : Except PyErr LongRow :=
  match str_to_int r.2.2.1 with
  | some y => .ok ⟨r.1, r.2.1, y, r.2.2.2⟩
  | Option.none => .error .valueError

/-- `astype(int)` applied down the melted year column: the whole conversion
fails (`ValueError`) as soon as any label fails to parse. -/
def coerceYears : List MRow → Except PyErr (List LongRow)
  | [] => .ok []
  | r :: rs =>
    match toLongRow r with
    | .ok lr =>
      match coerceYears rs with
      | .ok lrs => .ok (lr :: lrs)
      | .error e => .error e
    | .error e => .error e

/-- `pivot_data` of `main.py`: melt then coerce the year column to int. -/
def pivot_data (w : Wide) : Except PyErr (List LongRow) :=
  coerceYears (melt w)

/-! ### Presentation layer -/

/-- The fixed bin edges of `main.py`. -/
def bins : List Rat := [10, 20, 30, 35, 40, 45, 60]

/-- The bin labels of `main.py`. -/
def labels : List String := ["10-20", "21-30", "31-35", "36-40", "41-45", "46-60"]

/-- Tail of `pd.cut` with `right=True`: intervals `(lo, e]`. -/
def cutGo (lo : Rat) (edges : List Rat) (lbls : List String) (h : Rat) : Option String :=
  match edges, lbls with
  | e :: es, l :: ls => if lo < h ∧ h ≤ e then some l else cutGo e es ls h
  | _, _ => Option.none

/-- `pd.cut(h, bins, labels, include_lowest=True, right=True)` on one
value: first interval `[e0, e1]`, later intervals `(e, e succ]`, out of
range → missing. -/
def pdCut (edges : List Rat) (lbls : List String) (h : Rat) : Option String :=
  match edges, lbls with
  | e0 :: e1 :: es, l :: ls =>
    if e0 ≤ h ∧ h ≤ e1 then some l else cutGo e1 es ls h
  | _, _ => Option.none

/-- The displayed class of an hours value: `pd.cut` into `hours_bin` (a
null hours value yields a missing bin) followed by the chart's
`transform_calculate`, which renders a missing bin as `"No data"`. -/
def hours_bin_display (h : Option Rat) : String :=
  match h with
  | Option.none => "No data"
  | some x =>
    match pdCut bins labels x with
    | some l => l
    | Option.none => "No data"

/-- The year selection of `main` (lines 223–226): the selectbox defaults to
the last entry of `sorted(df_long["year"].unique())`, and the selected
value then passes through `or 2024` (Python truthiness: a `0` year is
replaced by `2024`).  `Option.none` for an empty year list. -/
def year_selected (years : List Int) : Option Int :=
  ((years.dedup).insertionSort (fun a b => a ≤ b)).getLast?.map
    (fun y => if y = 0 then 2024 else y)

/-- `extract_selected_country` of `main.py`, over Python event payloads. -/
def extract_selected_country (event : PyVal) (selName : String) :
    Except PyErr PyVal :=
  match pyGet (if pyTruthy event then event else .dict []) "selection" (.dict []) with
  | .error e => .error e
  | .ok cont =>
    match pyGet cont selName .none with
    | .error e => .error e
    | .ok sel =>
      match sel with
      | .list (x :: _) => pyGet x "country" .none
      | .dict es =>
        if pyContains sel "country" then
          match dictGet es "country" .none with
          | .list (y :: _) => .ok y
          | v => .ok v
        else if pyContains sel "values" && pyTruthy (dictGet es "values" .none) then
          match pyIndex0 (dictGet es "values" .none) with
          | .ok first => pyGet first "country" .none
          | .error e => .error e
        else .ok .none
      | _ => .ok .none

/-- Selections on which `extract_selected_country` returns `None` without
raising: scalars, empty lists, and dicts with no `country` key and no
truthy `values` entry. -/
def benignSel : PyVal → Bool
  | .list (_ :: _) => false
  | .dict es => !(pyContains (.dict es) "country")
      && !(pyTruthy (dictGet es "values" PyVal.none))
  | _ => true

/-- `country_to_show = clicked_country or "France"` of `main` (line 232):
Python `or`, so any falsy click result (no click, empty string, empty
list) resolves to the hardcoded fallback. -/
def country_to_show (clicked : PyVal) : PyVal :=
  if pyTruthy clicked then clicked else .str "France"

/-- The data source of `show_history`: `df.loc[df['country'] == country]`;
comparing a column of strings against a non-string selects nothing. -/
def show_history_source (rows : List LongRow) (c : PyVal) : List LongRow :=
  rows.filter (fun r =>
    match c with
    | .str s => r.country == s
    | _ => false)

/-! ### Helper lemmas -/

theorem toLongRow_error_eq (r : MRow) (e : PyErr)
    (h : toLongRow r = Except.error e) : e = PyErr.valueError := by
  unfold toLongRow at h
  split at h
  · cases h
  · cases h
    rfl

theorem coerceYears_error (l : List MRow) (x : MRow) (hx : x ∈ l)
    (hfx : toLongRow x = Except.error PyErr.valueError) :
    coerceYears l = Except.error PyErr.valueError := by
  induction l with
  | nil => cases hx
  | cons y t ih =>
    rcases List.mem_cons.mp hx with rfl | hxt
    · unfold coerceYears
      rw [hfx]
    · rcases hy : toLongRow y with e2 | ly
      · unfold coerceYears
        rw [hy, toLongRow_error_eq y e2 hy]
      · unfold coerceYears
        rw [hy, ih hxt]

theorem meltCols_mem_label (i : Nat) (cols : List String)
    (rows : List (String × Option String × List (Option Rat)))
    (c : String) (hc : c ∈ cols)
    (r : String × Option String × List (Option Rat)) (hr : r ∈ rows) :
    ∃ x ∈ meltCols i cols rows, x.2.2.1 = c := by
  induction cols generalizing i with
  | nil => cases hc
  | cons c0 cs ih =>
    rcases List.mem_cons.mp hc with rfl | hcs
    · refine ⟨(r.1, r.2.1, c, r.2.2.getD i Option.none), ?_, rfl⟩
      unfold meltCols
      exact List.mem_append_left _ (List.mem_map_of_mem _ hr)
    · obtain ⟨x, hx, hxc⟩ := ih (i + 1) hcs
      refine ⟨x, ?_, hxc⟩
      unfold meltCols
      exact List.mem_append_right _ hx

theorem zip_self_map {α β : Type} (l : List α) (f : α → β) :
    l.zip (l.map f) = l.map (fun a => (a, f a)) := by
  induction l with
  | nil => rfl
  | cons a t ih => simp [ih]

theorem getD_append_singleton {α : Type} (r : List α) (v d : α) :
    (r ++ [v]).getD r.length d = v := by
  simp [List.getD_eq_getElem?_getD, List.getElem?_append_right (le_refl r.length)]

theorem rows_annot_filter (n : Nat) (g : List PyVal → PyVal)
    (rows : List (List PyVal)) (hwf : ∀ r ∈ rows, r.length = n) :
    (rows.map (fun r => r ++ [g r])).filter
        (fun r2 => !(r2.getD n PyVal.none).isNone) =
      rows.filterMap (fun r =>
        if (g r).isNone then Option.none else some (r ++ [g r])) := by
  induction rows with
  | nil => rfl
  | cons r t ih =>
    have hr : r.length = n := hwf r (by simp)
    have ht : ∀ x ∈ t, x.length = n := fun x hx => hwf x (by simp [hx])
    have hget : (r ++ [g r]).getD n PyVal.none = g r := by
      rw [← hr]
      exact getD_append_singleton r (g r) PyVal.none
    rw [List.map_cons, List.filter_cons, List.filterMap_cons, hget]
    by_cases hgn : (g r).isNone = true
    · simp only [hgn]
      simpa using ih ht
    · simp only [Bool.not_eq_true] at hgn
      simp only [hgn]
      simpa using ih ht

theorem sorted_getLast_ge (l : List Int) (hs : l.Sorted (fun a b => a ≤ b)) :
    ∀ a ∈ l, ∀ b, l.getLast? = some b → a ≤ b := by
  induction l with
  | nil =>
    intro a ha
    cases ha
  | cons x t ih =>
    intro a ha b hb
    rcases List.sorted_cons.mp hs with ⟨hx, ht⟩
    cases t with
    | nil =>
      simp at ha hb
      omega
    | cons y u =>
      rw [List.getLast?_cons_cons] at hb
      rcases List.mem_cons.mp ha with rfl | hat
      · exact hx b (List.mem_of_mem_getLast? hb)
      · exact ih ht a hat b hb

/-! ### Claim theorems -/

/-- Claim C2: binning is total and deterministic — every hours value (null
included) is assigned exactly one label from the six bins or `"No data"`,
with the right-closed, lowest-inclusive convention: 10 → "10-20",
20 → "10-20", 60 → "46-60", 61 → "No data", null → "No data". -/
theorem binning_total_and_edges :
    (∀ h : Option Rat, hours_bin_display h ∈ "No data" :: labels) ∧
    hours_bin_display (some 10) = "10-20" ∧
    hours_bin_display (some 20) = "10-20" ∧
    hours_bin_display (some 60) = "46-60" ∧
    hours_bin_display (some 61) = "No data" ∧
    hours_bin_display Option.none = "No data" := by
  refine ⟨?_, by decide, by decide, by decide, by decide, rfl⟩
  intro h
  cases h with
  | none => simp [hours_bin_display]
  | some x =>
    simp only [hours_bin_display, bins, labels, pdCut, cutGo]
    split_ifs <;> simp [labels]

/-- Claim C3: for every two-letter code in the fixed country table, mapping
it to its display name and back through the reversed mapping returns the
original code. -/
theorem code_country_roundtrip :
    ∀ c ∈ code_to_country.map Prod.fst,
      (code_to_name c).bind name_to_code = some c := by decide

theorem code_country_roundtrip_witness :
    "BE" ∈ code_to_country.map Prod.fst ∧
      (code_to_name "BE").bind name_to_code = some "BE" :=
  ⟨by decide, code_country_roundtrip "BE" (by decide)⟩

/-- Claim C5 (amended): `download_data` raises exactly when the provider
response is absent (`None`); an empty-but-present response is not rejected
(see the counterexample for the dropped "empty" half of the claim). -/
theorem download_data_absent_raises :
    download_data Option.none = Except.error PyErr.runtimeError := rfl

-- Counterexample to C5 as stated: a present response with the expected
-- columns and zero rows is returned as an (empty) table, not raised on.
theorem download_data_empty_result_returns :
    download_data (some ⟨["freq", "isco08", "wstatus", "worktime", "age",
        "unit", "sex", "geo\\TIME_PERIOD", "2024"], []⟩) =
      Except.ok ⟨["ISO2", "2024"], []⟩ := rfl

/-- Claim C7: pivoting a Wide Table with year columns 2020 and 2021 and a
single country row yields exactly two Long Table rows, one per year, each
hours value carried over unchanged. -/
theorem pivot_preserves_observations (c : String) (iso : Option String)
    (h0 h1 : Option Rat) :
    pivot_data ⟨["2020", "2021"], [(c, iso, [h0, h1])]⟩ =
      Except.ok [⟨c, iso, 2020, h0⟩, ⟨c, iso, 2021, h1⟩] := rfl

/-- Claim C9 (amended): the active country is the map-click result when one
is present and truthy; a falsy click value (no click, or an empty string)
resolves to the hardcoded fallback "France"; the history view's data source
is exactly the rows of the resolved country. -/
theorem country_to_show_resolved (clicked : PyVal) (rows : List LongRow) :
    (pyTruthy clicked = true → country_to_show clicked = clicked) ∧
    (pyTruthy clicked = false → country_to_show clicked = PyVal.str "France") ∧
    (∀ s, country_to_show clicked = PyVal.str s →
      ((∀ r ∈ show_history_source rows (country_to_show clicked), r.country = s) ∧
       (∀ r ∈ rows, r.country = s →
          r ∈ show_history_source rows (country_to_show clicked)))) := by
  refine ⟨fun ht => by simp [country_to_show, ht],
          fun hf => by simp [country_to_show, hf], ?_⟩
  intro s hs
  rw [hs]
  constructor
  · intro r hr
    rcases List.mem_filter.mp hr with ⟨-, hp⟩
    simpa using hp
  · intro r hr hrc
    exact List.mem_filter.mpr ⟨hr, by simpa using hrc⟩

theorem country_to_show_resolved_witness :
    country_to_show (PyVal.str "Spain") = PyVal.str "Spain" :=
  (country_to_show_resolved (PyVal.str "Spain") []).1 rfl

-- Counterexample to C9 as stated: an empty-string click result is present
-- yet resolves to "France", not to itself.
theorem country_to_show_empty_click :
    country_to_show (PyVal.str "") = PyVal.str "France" ∧
      PyVal.str "France" ≠ PyVal.str "" := by
  exact ⟨rfl, by simp⟩

/-- Claim C1 (amended): whenever the remote strategy (download plus country
annotation) raises any exception — including the provider returning `None`
— the acquisition step of `main` returns the local-snapshot-derived table
with the fallback flag set (driving the warning banner), and the remote
error never propagates; only a local-strategy failure propagates.  An
empty-but-present remote result, however, is returned from the remote path
without fallback (see the counterexample). -/
theorem acquire_falls_back_on_remote_error (resp : Option DF)
    (localRead : Except PyErr DF) (e : PyErr)
    (h : remote_acquire resp = Except.error e) :
    (∀ df, local_acquire localRead = Except.ok df →
        acquire resp localRead = Except.ok (df, true)) ∧
    (∀ e2, local_acquire localRead = Except.error e2 →
        acquire resp localRead = Except.error e2) := by
  constructor <;> intro x hx <;> simp [acquire, h, hx]

theorem acquire_falls_back_witness :
    acquire Option.none
        (Except.ok ⟨["country", "2024"], [[PyVal.str "France", PyVal.int 36]]⟩) =
      Except.ok (⟨["country", "2024", "ISO2"],
        [[PyVal.str "France", PyVal.int 36, PyVal.str "FR"]]⟩, true) :=
  (acquire_falls_back_on_remote_error Option.none _ PyErr.runtimeError rfl).1 _ rfl

-- Counterexample to C1 as stated: an empty (zero-row) but present remote
-- result does not trigger the fallback — the remote path succeeds, the
-- flag stays false, and the result is not derived from the local snapshot.
theorem acquire_empty_remote_no_fallback :
    acquire (some ⟨["freq", "isco08", "wstatus", "worktime", "age", "unit",
          "sex", "geo\\TIME_PERIOD", "2024"], []⟩)
        (Except.ok ⟨["country", "2024"], [[PyVal.str "France", PyVal.int 36]]⟩) =
      Except.ok (⟨["ISO2", "2024", "country"], []⟩, false) := rfl

/-- Claim C10 (amended): `extract_selected_country` returns `None` without
raising on every payload that is falsy or whose (dict-shaped) selection
entry is a scalar, an empty list, or a dict with neither a `country` key
nor a truthy `values` entry; but a non-empty list selection whose first
element is not a record, or a truthy non-dict selection container, raises
(see the counterexample). -/
theorem extract_selected_country_benign (event : PyVal) (name : String)
    (h : pyTruthy event = false ∨
      ∃ es es2, event = PyVal.dict es ∧
        dictGet es "selection" (PyVal.dict []) = PyVal.dict es2 ∧
        benignSel (dictGet es2 name PyVal.none) = true) :
    extract_selected_country event name = Except.ok PyVal.none := by
  rcases h with hf | ⟨es, es2, rfl, hsel, hb⟩
  · unfold extract_selected_country
    rw [hf]
    simp [pyGet, dictGet]
  · have hbase :
        (if pyTruthy (PyVal.dict es) = true then PyVal.dict es else PyVal.dict []) =
          PyVal.dict es := by
      cases es with
      | nil => simp [pyTruthy]
      | cons e t => simp [pyTruthy]
    unfold extract_selected_country
    rw [hbase]
    simp only [pyGet]
    rw [hsel]
    simp only [pyGet]
    rcases hv : dictGet es2 name PyVal.none with _ | s | n2 | xs | es3
    · rfl
    · rfl
    · rfl
    · rw [hv] at hb
      cases xs with
      | nil => rfl
      | cons x xt => simp [benignSel] at hb
    · rw [hv] at hb
      simp only [benignSel, Bool.and_eq_true, Bool.not_eq_true'] at hb
      simp [hb.1, hb.2]

theorem extract_selected_country_benign_witness :
    extract_selected_country
        (PyVal.dict [("selection", PyVal.dict [("country_click", PyVal.none)])])
        "country_click" = Except.ok PyVal.none :=
  extract_selected_country_benign _ "country_click" (Or.inr ⟨_, _, rfl, rfl, rfl⟩)

-- Counterexample to C10 as stated: a selection that is a non-empty list
-- whose first element is not a record is "neither a non-empty list of
-- records nor a dictionary ...", yet the function raises AttributeError
-- instead of returning None.
theorem extract_selected_country_nonrecord_raises :
    extract_selected_country
        (PyVal.dict [("selection",
          PyVal.dict [("country_click", PyVal.list [PyVal.int 5])])])
        "country_click" = Except.error PyErr.attributeError := rfl

/-- Claim C4 (amended): for every Wide Table containing at least one
country row, if some year column label is not a valid integer string then
`pivot_data` raises (`ValueError`, the pandas `astype(int)` failure
standing for the spec's `SchemaError`) rather than silently dropping the
year.  A Wide Table with zero rows, however, passes the coercion vacuously
(see the counterexample). -/
theorem pivot_data_bad_year_raises (w : Wide) (c : String)
    (hc : c ∈ w.yearCols) (hbad : str_to_int c = Option.none)
    (r0 : String × Option String × List (Option Rat)) (hr : r0 ∈ w.rows) :
    pivot_data w = Except.error PyErr.valueError := by
  obtain ⟨x, hx, hxc⟩ := meltCols_mem_label 0 w.yearCols w.rows c hc r0 hr
  have hfx : toLongRow x = Except.error PyErr.valueError := by
    unfold toLongRow
    rw [hxc, hbad]
  exact coerceYears_error _ x hx hfx

theorem pivot_data_bad_year_raises_witness :
    pivot_data ⟨["20x5"], [("France", some "FR", [some 1])]⟩ =
      Except.error PyErr.valueError :=
  pivot_data_bad_year_raises _ "20x5" (by simp) rfl
    ("France", some "FR", [some 1]) (by simp)

-- Counterexample to C4 as stated: a Wide Table with an invalid year column
-- label but no rows pivots to an empty Long Table without raising.
theorem pivot_data_bad_year_empty_rows_ok :
    pivot_data ⟨["20x5"], []⟩ = Except.ok [] := rfl

theorem zip_map_append (l : List (List PyVal)) (f : List PyVal → PyVal) :
    (l.zip (l.map f)).map (fun p => p.1 ++ [p.2]) = l.map (fun r => r ++ [f r]) := by
  induction l with
  | nil => rfl
  | cons a t ih => simp [ih]

/-- Claim C6: country annotation is asymmetric.  Remote path (given the
remote frame shape: an `ISO2` column at index `i`, no `country` column,
rows aligned with the columns): rows whose code has no resolver entry are
dropped, the others get the display name appended.  Local path (given the
local frame shape: a `country` column at index `j`, no `ISO2` column):
every row is kept, annotated with the resolved code or an absent (`None`)
code when the name has no inverse entry. -/
theorem rename_countries_asymmetric :
    (∀ (df : DF) (i : Nat),
        df.columns.findIdx? (fun x => x == "ISO2") = some i →
        df.columns.findIdx? (fun x => x == "country") = Option.none →
        (∀ r ∈ df.rows, r.length = df.columns.length) →
        rename_countries df false = Except.ok
          ⟨df.columns ++ ["country"],
           df.rows.filterMap (fun r =>
             if (mapToCountry (r.getD i PyVal.none)).isNone then Option.none
             else some (r ++ [mapToCountry (r.getD i PyVal.none)]))⟩) ∧
    (∀ (df : DF) (j : Nat),
        df.columns.findIdx? (fun x => x == "country") = some j →
        df.columns.findIdx? (fun x => x == "ISO2") = Option.none →
        rename_countries df true = Except.ok
          ⟨df.columns ++ ["ISO2"],
           df.rows.map (fun r => r ++ [mapToCode (r.getD j PyVal.none)])⟩) := by
  constructor
  · intro df i hiso hnc hwf
    unfold rename_countries getCol setCol
    rw [hiso, hnc]
    have hfc : List.findIdx? (fun x => x == "country") (df.columns ++ ["country"]) =
        some df.columns.length := by
      rw [List.findIdx?_append, hnc]
      simp [List.findIdx?_cons]
    simp only [Bool.not_false, eq_self_iff_true, if_true, List.map_map]
    rw [zip_map_append df.rows (mapToCountry ∘ fun r => r.getD i PyVal.none), hfc]
    exact congrArg (fun rs => Except.ok (⟨df.columns ++ ["country"], rs⟩ : DF))
      (rows_annot_filter df.columns.length
        (mapToCountry ∘ fun r => r.getD i PyVal.none) df.rows hwf)
  · intro df j hcty hniso
    unfold rename_countries getCol setCol
    rw [hcty, hniso]
    simp only [Bool.not_true, Bool.false_eq_true, if_false, List.map_map]
    rw [zip_map_append df.rows (mapToCode ∘ fun r => r.getD j PyVal.none)]
    rfl

theorem rename_countries_asymmetric_witness :
    rename_countries ⟨["ISO2"], [[PyVal.str "FR"], [PyVal.str "XX"]]⟩ false =
      Except.ok ⟨["ISO2", "country"], [[PyVal.str "FR", PyVal.str "France"]]⟩ := by
  have h := rename_countries_asymmetric.1
    ⟨["ISO2"], [[PyVal.str "FR"], [PyVal.str "XX"]]⟩ 0 rfl rfl
    (by
      intro r hr
      rcases List.mem_cons.mp hr with rfl | hr2
      · rfl
      · rcases List.mem_cons.mp hr2 with rfl | hr3
        · rfl
        · cases hr3)
  exact h.trans rfl

/-- Claim C8 (amended): the year selectbox defaults to the last entry of
the sorted distinct years, i.e. the maximum year present, and the selected
value then passes through Python `or 2024`; so for every Long Table whose
maximum year is nonzero (in particular for years 2015–2024, giving 2024)
the default selected year is the maximum year present, while a maximum
year of exactly 0 would be replaced by 2024 (see the counterexample). -/
theorem year_selected_eq_max (years : List Int) (m : Int)
    (hm : m ∈ years) (hub : ∀ y ∈ years, y ≤ m) (h0 : m ≠ 0) :
    year_selected years = some m := by
  unfold year_selected
  have hperm := List.perm_insertionSort (fun a b => a ≤ b) years.dedup
  have hsort := List.sorted_insertionSort (fun a b => a ≤ b) years.dedup
  set s := years.dedup.insertionSort (fun a b => a ≤ b) with hsdef
  have hms : m ∈ s := hperm.mem_iff.mpr (List.mem_dedup.mpr hm)
  rcases hgl : s.getLast? with _ | b
  · rw [List.getLast?_eq_none_iff] at hgl
    rw [hgl] at hms
    cases hms
  · have hbm : b ≤ m :=
      hub b (List.mem_dedup.mp (hperm.mem_iff.mp (List.mem_of_mem_getLast? hgl)))
    have hmb : m ≤ b := sorted_getLast_ge s hsort m hms b hgl
    have hbe : b = m := le_antisymm hbm hmb
    subst hbe
    simp [Option.map_some, h0]

theorem year_selected_eq_max_witness :
    year_selected [2015, 2016, 2017, 2018, 2019, 2020, 2021, 2022, 2023, 2024] =
      some 2024 :=
  year_selected_eq_max _ 2024 (by decide) (by decide) (by decide)

-- Counterexample to C8 as stated: with a (degenerate) Long Table whose
-- only year is 0, the most recent year present is 0, yet Python `or`
-- replaces the falsy selection with 2024.
theorem year_selected_zero_year :
    year_selected [0] = some 2024 ∧ year_selected [0] ≠ some 0 := by decide
